import Mathlib

/-!
Shallow embedding of the ProbeLensAI interview orchestration core.

Definitions are translated from the repository source:
  * types.ts                  -- data model (enums, AnalysisMetrics, InterviewTurn, ReportData)
  * utils.ts                  -- processFile (document ingestion)
  * the Gemini service module -- generateFastNextQuestion, analyzeCodeSnippet,
                                 analyzeResponseDeeply, generateFinalReport
  * components/SetupStage.tsx -- InterviewStage.processAnswerData (orchestrator)

The remote model is opaque: every operation that performs a network call takes the
parsed remote response (or its failure) as an explicit argument, and operations
report through an explicit flag whether the remote model was actually invoked.
-/

namespace ProbeLens

/-- type AnswerQuality = 'Basic' | 'Intermediate' | 'Expert' (types.ts). -/
inductive AnswerQuality
  | Basic
  | Intermediate
  | Expert
deriving DecidableEq, Repr

/-- type QuestionComplexity = 'Basic' | 'Intermediate' | 'Expert' (types.ts). -/
inductive QuestionComplexity
  | Basic
  | Intermediate
  | Expert
deriving DecidableEq, Repr

/-- Numeric rank of a complexity level, used to state order comparisons. -/
def QuestionComplexity.rank : QuestionComplexity → Nat
  | .Basic => 0
  | .Intermediate => 1
  | .Expert => 2

/-- type IntegrityStatus = 'Clean' | 'Suspicious' (types.ts). -/
inductive IntegrityStatus
  | Clean
  | Suspicious
deriving DecidableEq, Repr

/-- sentiment enum of AnalysisMetrics (types.ts). -/
inductive Sentiment
  | Positive
  | Neutral
  | Negative
  | Anxious
  | Confident
  | Defensive
deriving DecidableEq, Repr

/-- paceOfSpeech enum of AnalysisMetrics (types.ts). -/
inductive Pace
  | Slow
  | Normal
  | Fast
  | Rushed
deriving DecidableEq, Repr

/-- recommendation enum of ReportData (types.ts). -/
inductive Recommendation
  | HIRE
  | NO_HIRE
  | STRONG_HIRE
  | MAYBE
deriving DecidableEq, Repr

/-- interface CodeAnalysisData (types.ts). -/
structure CodeAnalysisData where
  language : String
  timeComplexity : String
  spaceComplexity : String
  bugs : List String
  suggestions : List String
  score : Int
deriving DecidableEq, Repr

/-- the integrity sub-record of AnalysisMetrics (types.ts). -/
structure IntegrityRecord where
  status : IntegrityStatus
  flaggedReason : Option String
deriving DecidableEq, Repr

/-- interface AnalysisMetrics (types.ts). -/
structure AnalysisMetrics where
  technicalAccuracy : Int
  communicationClarity : Int
  relevance : Int
  sentiment : Sentiment
  deceptionProbability : Int
  paceOfSpeech : Pace
  starMethodAdherence : Bool
  keySkillsDemonstrated : List String
  improvementAreas : List String
  integrity : IntegrityRecord
  answerQuality : AnswerQuality
  codeAnalysis : Option CodeAnalysisData
deriving DecidableEq, Repr

/-- interface InterviewTurn (types.ts). -/
structure InterviewTurn where
  id : Nat
  question : String
  questionComplexity : QuestionComplexity
  answerAudioBase64 : Option String
  answerVideoFrameBase64 : Option String
  transcript : String
  submittedCode : Option String
  analysis : AnalysisMetrics
  interviewerNotes : Option String
deriving DecidableEq, Repr

/-- the categoryScores sub-record of ReportData (types.ts). -/
structure CategoryScores where
  subjectKnowledge : Int
  behavioral : Int
  functional : Int
  nonFunctional : Int
  communication : Int
  technical : Int
  coding : Int
deriving DecidableEq, Repr

/-- the skillDepthBreakdown sub-record of ReportData (types.ts). -/
structure SkillDepthBreakdown where
  basic : Int
  intermediate : Int
  expert : Int
deriving DecidableEq, Repr

/-- interface ReportData (types.ts). -/
structure ReportData where
  overallScore : Int
  categoryScores : CategoryScores
  summary : String
  psychologicalProfile : String
  recommendation : Recommendation
  turns : List InterviewTurn
  integrityScore : Int
  skillDepthBreakdown : SkillDepthBreakdown
deriving DecidableEq, Repr

/-- interface FileData (types.ts): name, declared media type, and optionally an
embedded base64 payload or extracted plain text. -/
structure FileData where
  name : String
  type : String
  base64 : Option String
  textContent : Option String
deriving DecidableEq, Repr

/-- Does the character list pat occur at the head of the character list s?
Executable helper mirroring the leading-match part of the JavaScript
String.prototype.includes semantics. -/
def charsLead : List Char → List Char → Bool
  | [], _ => true
  | _ :: _, [] => false
  | a :: as, b :: bs => a = b && charsLead as bs

/-- Does pat occur contiguously anywhere inside s? -/
def charsContain (pat : List Char) : List Char → Bool
  | [] => charsLead pat []
  | c :: cs => charsLead pat (c :: cs) || charsContain pat cs

/-- JavaScript s.includes(pat): substring containment on strings. -/
def strContains (s pat : String) : Bool :=
  charsContain pat.toList s.toList

/-- JavaScript s.startsWith(pat). -/
def strStarts (s pat : String) : Bool :=
  charsLead pat.toList s.toList

/-- JavaScript s.endsWith(pat). -/
def strEnds (s pat : String) : Bool :=
  charsLead pat.toList.reverse s.toList.reverse

/-- Whitespace as stripped by JavaScript String.prototype.trim (the characters
relevant to transcripts). -/
def isJsSpace (c : Char) : Bool :=
  c = ' ' || c = '\t' || c = '\n' || c = '\r'

/-- JavaScript s.trim() === "": true exactly when every character of s is
whitespace. -/
def strTrimEmpty (s : String) : Bool :=
  s.toList.all isJsSpace

/-! ## Document ingestion: processFile (utils.ts, lines 29-64)

The File input is modelled by its observable attributes: declared name, declared
media type, and the two possible readings of its content (the base64 encoding a
FileReader.readAsDataURL would yield, and the text a readAsText would yield).
The TypeScript function returns a Promise of FileData; rejection of the promise
is modelled by the error side of Except, so that the claimed
unsupported-file-type failure is expressible. -/

/-- processFile (utils.ts): PDF keeps the base64 payload tagged
application/pdf; text/*, .txt and .md extract text; every other declared type
falls to the final else branch, which keeps the base64 payload under the
declared type (or application/octet-stream when the declared type is the empty
string, per the JavaScript truthiness of file.type). -/
def processFile (name ftype base64Content textContent : String) :
    Except String FileData :=
  if ftype = "application/pdf" then
    .ok { name := name, type := "application/pdf",
          base64 := some base64Content, textContent := none }
  else if strStarts ftype "text/" || strEnds name ".txt" || strEnds name ".md" then
    .ok { name := name, type := "text/plain",
          base64 := none, textContent := some textContent }
  else
    .ok { name := name,
          type := if ftype = "" then "application/octet-stream" else ftype,
          base64 := some base64Content, textContent := none }

/-! ## Analysis Gateway, Phase 1: generateFastNextQuestion
(Gemini service module, first version, lines 84-173)

The parsed remote JSON is the function input; a network or parse failure is the
error side of Except. The response schema marks no field required, so
transcript and nextQuestion are Option (undefined when absent); answerQuality
and nextComplexity are taken as present enum values, which is all the settled
claims need. -/

/-- The parsed structured-output JSON of the Phase 1 remote call. -/
structure FastJson where
  transcript : Option String
  answerQuality : AnswerQuality
  nextQuestion : Option String
  nextComplexity : QuestionComplexity
deriving DecidableEq, Repr

/-- Return type of generateFastNextQuestion (Gemini service module). -/
structure FastResult where
  transcript : String
  answerQuality : AnswerQuality
  nextQuestion : String
  nextComplexity : QuestionComplexity
deriving DecidableEq, Repr

/-- The object returned by the catch branch of generateFastNextQuestion. -/
def fallbackFastResult : FastResult :=
  { transcript := "(Error analyzing audio)"
    answerQuality := .Basic
    nextQuestion := "I encountered a technical glitch analyzing your audio. Please check your microphone and try again."
    nextComplexity := .Basic }

/-- The prior complexity C read by generateFastNextQuestion: the
questionComplexity of the last history turn, or Basic for an empty history
(the lastComplexity local of the source). -/
def lastComplexity (history : List InterviewTurn) : QuestionComplexity :=
  match history.getLast? with
  | some t => t.questionComplexity
  | none => .Basic

/-- generateFastNextQuestion (first version): parses the remote response,
substitutes the silence sentinel for a missing or blank transcript, and throws
on a missing nextQuestion ("STRICT MODE" comment in the source) — but that
throw is raised inside the same try block whose catch returns
fallbackFastResult, so every failure path, the strict-mode throw included,
yields the canned fallback object instead of a rejected promise. The history
argument only feeds prompt text; it does not constrain the returned value. -/
def generateFastNextQuestion (history : List InterviewTurn)
    (remote : Except Unit FastJson) : FastResult :=
  match remote with
  | .error _ => fallbackFastResult
  | .ok j =>
    let transcript :=
      match j.transcript with
      | none => "(No audible response detected)"
      | some s => if strTrimEmpty s then "(No audible response detected)" else s
    match j.nextQuestion with
    | none => fallbackFastResult
    | some q =>
      if q = "" then fallbackFastResult
      else
        { transcript := transcript
          answerQuality := j.answerQuality
          nextQuestion := q
          nextComplexity := j.nextComplexity }

/-! ## Analysis Gateway, code forensics and Phase 2
(Gemini service module, first version, lines 176-231 and 291-393) -/

/-- analyzeCodeSnippet: returns the parsed remote JSON, or the explicit
failed-analysis record from its catch branch. It never rejects. -/
def analyzeCodeSnippet (remote : Except Unit CodeAnalysisData) : CodeAnalysisData :=
  match remote with
  | .ok d => d
  | .error _ =>
    { language := "Unknown", timeComplexity := "?", spaceComplexity := "?",
      bugs := ["Analysis Failed"], suggestions := [], score := 0 }

/-- The zeroed/neutral AnalysisMetrics literal the deep pass returns on its
two local paths; the single improvementAreas entry distinguishes them
("No Audio Data" on the quick exit, "Analysis Failed" in the catch). -/
def neutralMetrics (area : String) : AnalysisMetrics :=
  { technicalAccuracy := 0, communicationClarity := 0, relevance := 0,
    sentiment := .Neutral, deceptionProbability := 0, paceOfSpeech := .Normal,
    starMethodAdherence := false, keySkillsDemonstrated := [],
    improvementAreas := [area],
    integrity := { status := .Clean, flaggedReason := none },
    answerQuality := .Basic, codeAnalysis := none }

/-- The parsed structured-output JSON of the Phase 2 remote call: the
AnalysisMetrics fields minus the locally attached codeAnalysis. -/
structure DeepJson where
  technicalAccuracy : Int
  communicationClarity : Int
  relevance : Int
  sentiment : Sentiment
  deceptionProbability : Int
  paceOfSpeech : Pace
  starMethodAdherence : Bool
  keySkillsDemonstrated : List String
  improvementAreas : List String
  integrity : IntegrityRecord
  answerQuality : AnswerQuality
deriving DecidableEq, Repr

/-- Spread of the parsed Phase 2 JSON with the locally computed codeAnalysis
attached (the return { ...json, codeAnalysis } of the source). -/
def DeepJson.toMetrics (j : DeepJson) (codeAnalysis : Option CodeAnalysisData) :
    AnalysisMetrics :=
  { technicalAccuracy := j.technicalAccuracy
    communicationClarity := j.communicationClarity
    relevance := j.relevance
    sentiment := j.sentiment
    deceptionProbability := j.deceptionProbability
    paceOfSpeech := j.paceOfSpeech
    starMethodAdherence := j.starMethodAdherence
    keySkillsDemonstrated := j.keySkillsDemonstrated
    improvementAreas := j.improvementAreas
    integrity := j.integrity
    answerQuality := j.answerQuality
    codeAnalysis := codeAnalysis }

/-- analyzeResponseDeeply (first version): quick exit to the neutral zeroed
metrics, without touching the remote model, when the transcript is empty or
contains a silence/error sentinel; otherwise runs the optional code
sub-analysis, then the deep remote call, whose catch returns the neutral
metrics tagged Analysis Failed. The Bool of the result records whether the
deep remote model was invoked at all (true also when the invocation failed). -/
def analyzeResponseDeeply (transcript : String) (submittedCode : Option String)
    (remoteCode : Except Unit CodeAnalysisData)
    (remote : Except Unit DeepJson) : AnalysisMetrics × Bool :=
  if transcript = "" || strContains transcript "(No audible response detected)"
      || strContains transcript "(Error" then
    (neutralMetrics "No Audio Data", false)
  else
    let codeAnalysis : Option CodeAnalysisData :=
      match submittedCode with
      | some c => if c.length > 10 then some (analyzeCodeSnippet remoteCode) else none
      | none => none
    match remote with
    | .ok j => (j.toMetrics codeAnalysis, true)
    | .error _ => (neutralMetrics "Analysis Failed", true)

/-! ## Analysis Gateway, report synthesis: generateFinalReport
(Gemini service module, first version, lines 396-500) -/

/-- The validity filter of generateFinalReport (the REAL-TIME GUARDRAIL):
transcript truthy, longer than 5, and free of both failure/silence sentinels. -/
def isValidTurn (t : InterviewTurn) : Bool :=
  t.transcript != "" && t.transcript.length > 5
    && !(strContains t.transcript "(Audio transcription failed)")
    && !(strContains t.transcript "(No audible response detected)")

/-- The deterministic zero-score report returned locally when no valid turn
remains (first version of generateFinalReport). -/
def noDataReport : ReportData :=
  { overallScore := 0
    integrityScore := 0
    skillDepthBreakdown := { basic := 0, intermediate := 0, expert := 0 }
    categoryScores :=
      { subjectKnowledge := 0, behavioral := 0, functional := 0,
        nonFunctional := 0, communication := 0, technical := 0, coding := 0 }
    summary := "Interview ended without any valid candidate conversation. No data to analyze."
    psychologicalProfile := "N/A"
    recommendation := .NO_HIRE
    turns := [] }

/-- The parsed structured-output JSON of the report remote call: ReportData
minus the locally attached turns list. -/
structure ReportJson where
  overallScore : Int
  integrityScore : Int
  skillDepthBreakdown : SkillDepthBreakdown
  categoryScores : CategoryScores
  summary : String
  psychologicalProfile : String
  recommendation : Recommendation
deriving DecidableEq, Repr

/-- Spread of the parsed report JSON with the valid turns attached
(the return { ...json, turns: validTurns } of the source). -/
def ReportJson.toReport (j : ReportJson) (turns : List InterviewTurn) : ReportData :=
  { overallScore := j.overallScore
    integrityScore := j.integrityScore
    skillDepthBreakdown := j.skillDepthBreakdown
    categoryScores := j.categoryScores
    summary := j.summary
    psychologicalProfile := j.psychologicalProfile
    recommendation := j.recommendation
    turns := turns }

/-- generateFinalReport (first version): filters history to valid turns,
returns noDataReport locally when none remain, and otherwise calls the remote
model, rethrowing its failure (the catch rethrows). The remote model is an
argument mapping the filtered turns it is shown to its response; the Bool of
the result records whether it was invoked. -/
def generateFinalReport (history : List InterviewTurn)
    (remote : List InterviewTurn → Except Unit ReportJson) :
    Except Unit (ReportData × Bool) :=
  let validTurns := history.filter isValidTurn
  if validTurns.length = 0 then
    .ok (noDataReport, false)
  else
    match remote validTurns with
    | .ok j => .ok (j.toReport validTurns, true)
    | .error e => .error e

/-! ## Session History Store operations

SessionHistory is the React history state of InterviewStage
(components/SetupStage.tsx). Its two mutation points are the functional
updates inside processAnswerData: the Phase 1 commit
setHistory(prev => [...prev, newTurn]) and the Phase 2 patch
setHistory(prev => prev.map(turn => turn.id === thisTurnId ? ... : turn)). -/

/-- The Phase 2 in-place patch: replace the analysis of the turn whose id
matches, leave every other turn untouched (SetupStage.tsx, lines 764-768). -/
def patchById (history : List InterviewTurn) (turnId : Nat)
    (m : AnalysisMetrics) : List InterviewTurn :=
  history.map fun turn =>
    if turn.id = turnId then { turn with analysis := m } else turn

/-! ## Interview Orchestrator: InterviewStage.processAnswerData
(components/SetupStage.tsx, lines 692-781)

The outcome records the next history value, whether Phase 1 (the fast gateway
call) was reached, whether Phase 2 (the background deep call) was launched,
the error banner, and the externally visible current question/complexity. -/

/-- Placeholder metrics of a freshly committed turn (SetupStage.tsx): zeroes
everywhere, with the given answer quality and improvement areas. -/
def placeholderMetrics (areas : List String) (quality : AnswerQuality) :
    AnalysisMetrics :=
  { technicalAccuracy := 0, communicationClarity := 0, relevance := 0,
    sentiment := .Neutral, deceptionProbability := 0, paceOfSpeech := .Normal,
    starMethodAdherence := false, keySkillsDemonstrated := [],
    improvementAreas := areas,
    integrity := { status := .Clean, flaggedReason := none },
    answerQuality := quality, codeAnalysis := none }

/-- Outcome of one processAnswerData invocation, up to and including the
launch decision for Phase 2. -/
structure AnswerOutcome where
  history : List InterviewTurn
  phase1Called : Bool
  phase2Launched : Bool
  errorMsg : Option String
  currentQuestion : String
  currentComplexity : QuestionComplexity
deriving DecidableEq, Repr

/-- processAnswerData (SetupStage.tsx): rejects a blob under 1000 bytes
locally with the no-audio banner, before any gateway call and without touching
history; otherwise runs Phase 1. A Phase 1 transcript carrying a
silence/error sentinel commits a failed turn with hardcoded Basic placeholder
metrics (improvementAreas No Speech Detected), advances the question but not
the complexity, and returns without launching Phase 2. Otherwise it commits
the turn with placeholder metrics carrying the Phase 1 answer quality,
advances question and complexity, and launches Phase 2 in the background.
The turn id is history.length + 1 (the thisTurnId local). -/
def processAnswerData (blobSize : Nat) (history : List InterviewTurn)
    (currentQuestion : String) (currentComplexity : QuestionComplexity)
    (mediaBase64 : String) (codeSubmitted : Option String)
    (remote : Except Unit FastJson) : AnswerOutcome :=
  if blobSize < 1000 then
    { history := history, phase1Called := false, phase2Launched := false,
      errorMsg := some "No audio detected. Please ensure the microphone is working.",
      currentQuestion := currentQuestion, currentComplexity := currentComplexity }
  else
    let thisTurnId := history.length + 1
    let fastResult := generateFastNextQuestion history remote
    if strContains fastResult.transcript "(No audible response"
        || strContains fastResult.transcript "(Error" then
      let failedTurn : InterviewTurn :=
        { id := thisTurnId, question := currentQuestion,
          questionComplexity := currentComplexity,
          answerAudioBase64 := some mediaBase64,
          answerVideoFrameBase64 := none,
          transcript := fastResult.transcript,
          submittedCode := codeSubmitted,
          analysis := placeholderMetrics ["No Speech Detected"] .Basic,
          interviewerNotes := none }
      { history := history ++ [failedTurn], phase1Called := true,
        phase2Launched := false, errorMsg := none,
        currentQuestion := fastResult.nextQuestion,
        currentComplexity := currentComplexity }
    else
      let newTurn : InterviewTurn :=
        { id := thisTurnId, question := currentQuestion,
          questionComplexity := currentComplexity,
          answerAudioBase64 := some mediaBase64,
          answerVideoFrameBase64 := none,
          transcript := fastResult.transcript,
          submittedCode := codeSubmitted,
          analysis := placeholderMetrics [] fastResult.answerQuality,
          interviewerNotes := none }
      { history := history ++ [newTurn], phase1Called := true,
        phase2Launched := true, errorMsg := none,
        currentQuestion := fastResult.nextQuestion,
        currentComplexity := fastResult.nextComplexity }

/-! ## Reachable session histories

A history is reachable when it arises from the empty history through the two
mutation points of processAnswerData: the Phase 1 commit (which appends a turn
with id = length + 1, on either the failed-turn or the normal branch) and the
Phase 2 patch-by-id. Phase 2 patches may interleave arbitrarily with later
commits. -/

/-- One Phase 1 commit: append a turn whose id is the current length + 1.
Both commit branches of processAnswerData have this shape; the remaining turn
fields are unconstrained here. -/
def commitTurn (history : List InterviewTurn) (question : String)
    (complexity : QuestionComplexity) (media : Option String)
    (transcript : String) (code : Option String) (m : AnalysisMetrics) :
    List InterviewTurn :=
  history ++ [{ id := history.length + 1, question := question,
                questionComplexity := complexity, answerAudioBase64 := media,
                answerVideoFrameBase64 := none, transcript := transcript,
                submittedCode := code, analysis := m, interviewerNotes := none }]

/-- The histories reachable from the empty session by Phase 1 commits and
Phase 2 patches, in any interleaving. -/
inductive ReachableHistory : List InterviewTurn → Prop
  | nil : ReachableHistory []
  | commit {h : List InterviewTurn} (question : String)
      (complexity : QuestionComplexity) (media : Option String)
      (transcript : String) (code : Option String) (m : AnalysisMetrics) :
      ReachableHistory h →
      ReachableHistory (commitTurn h question complexity media transcript code m)
  | patch {h : List InterviewTurn} (turnId : Nat) (m : AnalysisMetrics) :
      ReachableHistory h → ReachableHistory (patchById h turnId m)

/-! ## Concrete fixtures used by witnesses and counterexamples -/

/-- A turn whose transcript is the silence sentinel, as committed by the
failed-turn branch of processAnswerData. -/
def silentTurn : InterviewTurn :=
  { id := 1, question := "Tell me about yourself in brief.",
    questionComplexity := .Basic, answerAudioBase64 := some "AAAA",
    answerVideoFrameBase64 := none,
    transcript := "(No audible response detected)", submittedCode := none,
    analysis := placeholderMetrics ["No Speech Detected"] .Basic,
    interviewerNotes := none }

/-- A remote Phase 1 response that omits nextQuestion but carries a perfectly
good transcript. -/
def missingNextQuestionJson : FastJson :=
  { transcript := some "I would use a hash map keyed by user id for constant time lookups",
    answerQuality := .Basic, nextQuestion := none, nextComplexity := .Basic }

/-- A remote Phase 1 response with the silence sentinel transcript but a
declared answer quality of Intermediate. -/
def sentinelIntermediateJson : FastJson :=
  { transcript := some "(No audible response detected)",
    answerQuality := .Intermediate,
    nextQuestion := some "Could you repeat?",
    nextComplexity := .Intermediate }

/-- A prior turn asked at Expert complexity. -/
def expertPriorTurn : InterviewTurn :=
  { id := 1, question := "Design a distributed rate limiter",
    questionComplexity := .Expert, answerAudioBase64 := none,
    answerVideoFrameBase64 := none,
    transcript := "A sliding window with a token bucket per user",
    submittedCode := none, analysis := placeholderMetrics [] .Expert,
    interviewerNotes := none }

/-- A remote Phase 1 response declaring an Expert-quality answer yet a Basic
next complexity. -/
def expertAnswerBasicNextJson : FastJson :=
  { transcript := some "We shard the counters per region and reconcile them asynchronously",
    answerQuality := .Expert,
    nextQuestion := some "How do you handle clock skew between shards?",
    nextComplexity := .Basic }

/-- A remote Phase 1 response with every field present and nonempty. -/
def ordinaryFastJson : FastJson :=
  { transcript := some "We compared quicksort and mergesort tradeoffs",
    answerQuality := .Intermediate,
    nextQuestion := some "When would you prefer a heap?",
    nextComplexity := .Expert }

/-- A deep-pass remote response that flags the candidate as Suspicious. -/
def suspiciousDeepJson : DeepJson :=
  { technicalAccuracy := 90, communicationClarity := 80, relevance := 85,
    sentiment := .Confident, deceptionProbability := 88, paceOfSpeech := .Fast,
    starMethodAdherence := true, keySkillsDemonstrated := ["SQL"],
    improvementAreas := [],
    integrity := { status := .Suspicious, flaggedReason := some "typing sounds" },
    answerQuality := .Expert }

/-- A two-commit, one-patch history: the Phase 2 result of turn 1 lands after
turn 2 was committed. -/
def twoTurnPatchedHistory : List InterviewTurn :=
  patchById
    (commitTurn
      (commitTurn [] "Tell me about yourself in brief." .Basic (some "AAAA")
        "I have six years of backend experience" none (placeholderMetrics [] .Basic))
      "Which databases have you used?" .Intermediate (some "BBBB")
      "Mostly Postgres and Redis" none (placeholderMetrics [] .Intermediate))
    1 (neutralMetrics "Analysis Failed")

/-! ## Claim theorems -/

/-- Claim C1: for every session history in which no turn passes the validity
filter, generateFinalReport returns, without invoking the remote model, the
locally built noDataReport, whose overallScore is 0, whose turns list is
empty, and whose recommendation is the fixed no-data value NO_HIRE. -/
theorem generateFinalReport_noValidTurns (history : List InterviewTurn)
    (remote : List InterviewTurn → Except Unit ReportJson)
    (h : ∀ t ∈ history, isValidTurn t = false) :
    generateFinalReport history remote = .ok (noDataReport, false) ∧
    noDataReport.overallScore = 0 ∧ noDataReport.turns = [] ∧
    noDataReport.recommendation = .NO_HIRE := by
  refine ⟨?_, rfl, rfl, rfl⟩
  have hf : history.filter isValidTurn = [] := by
    rw [List.filter_eq_nil_iff]
    intro a ha
    simp [h a ha]
  unfold generateFinalReport
  simp [hf]

/-- Claim C1 witness: on a history consisting of one silent turn and a remote
model that would fail if consulted, the report is the local no-data report
and the remote model is not invoked. -/
theorem generateFinalReport_noValidTurns_witness :
    generateFinalReport [silentTurn] (fun _ => Except.error ()) =
      .ok (noDataReport, false) :=
  (generateFinalReport_noValidTurns [silentTurn] (fun _ => Except.error ())
    (by decide)).1

/-- Claim C2: the source comments the missing-nextQuestion check as strict
mode (do NOT fallback, let the UI handle the error), but the throw sits
inside the try block whose catch returns the canned fallback object, so a
response without a nextQuestion yields the substituted canned question
instead of a propagated error. This evaluates the code at the failing
input. -/
theorem generateFastNextQuestion_missingQuestion_returns_canned :
    generateFastNextQuestion [] (.ok missingNextQuestionJson) = fallbackFastResult ∧
    fallbackFastResult.nextQuestion =
      "I encountered a technical glitch analyzing your audio. Please check your microphone and try again." ∧
    fallbackFastResult.transcript = "(Error analyzing audio)" := by
  refine ⟨rfl, rfl, rfl⟩

/-- Claim C3 counterexample: a Word document (neither PDF nor a text or
Markdown type) is not rejected: processFile returns a successful FileData
that silently passes the base64 payload onward under the declared type. -/
theorem processFile_docx_not_rejected :
    processFile "report.docx" "application/msword" "UEsDBBQABgAIAAAAIQ" "" =
      .ok { name := "report.docx", type := "application/msword",
            base64 := some "UEsDBBQABgAIAAAAIQ", textContent := none } := by
  rfl

/-- Claim C3 amended: for every input file whose declared type is neither PDF
nor text/* and whose name ends in neither .txt nor .md, processFile does not
fail: it falls back to a best-effort encoding, returning a successful
FileData that keeps the base64 payload under the declared type
(application/octet-stream when the declared type is empty). -/
theorem processFile_unsupported_fallback (name ftype base64Content textContent : String)
    (h1 : ftype ≠ "application/pdf")
    (h2 : strStarts ftype "text/" = false)
    (h3 : strEnds name ".txt" = false)
    (h4 : strEnds name ".md" = false) :
    processFile name ftype base64Content textContent =
      .ok { name := name,
            type := if ftype = "" then "application/octet-stream" else ftype,
            base64 := some base64Content, textContent := none } := by
  unfold processFile
  simp [h1, h2, h3, h4]

/-- Claim C3 amended witness: a concrete Word document takes the fallback
branch. -/
theorem processFile_unsupported_fallback_witness :
    processFile "resume.doc" "application/msword" "0M8R4KGxGuE" "" =
      .ok { name := "resume.doc",
            type := if "application/msword" = "" then "application/octet-stream"
                    else "application/msword",
            base64 := some "0M8R4KGxGuE", textContent := none } :=
  processFile_unsupported_fallback "resume.doc" "application/msword" "0M8R4KGxGuE" ""
    (by decide) (by decide) (by decide) (by decide)

/-- Claim C4 counterexample: a Phase 1 result carrying the sentinel
transcript with a declared answer quality of Intermediate is committed with
answerQuality Basic (the hardcoded placeholder), not the Phase-1-declared
value. -/
theorem processAnswerData_sentinel_quality_counterexample :
    ((processAnswerData 4096 [] "Explain database indexing." .Intermediate
        "AAAA" none (.ok sentinelIntermediateJson)).history.map
      fun t => t.analysis.answerQuality) = [AnswerQuality.Basic] ∧
    sentinelIntermediateJson.answerQuality = .Intermediate ∧
    AnswerQuality.Basic ≠ AnswerQuality.Intermediate := by
  decide

/-- Claim C4 amended: for every turn whose Phase 1 result carries a
silence/error sentinel transcript, the committed Turn has the hardcoded
zeroed placeholder metrics with answerQuality Basic and improvementAreas
No Speech Detected — regardless of the Phase-1-declared answer quality — and
Phase 2 is never launched, so no deep-analysis remote call is made. -/
theorem processAnswerData_sentinel_commit (blobSize : Nat)
    (history : List InterviewTurn) (question : String)
    (complexity : QuestionComplexity) (media : String) (code : Option String)
    (remote : Except Unit FastJson)
    (hsize : ¬ blobSize < 1000)
    (hsent : (strContains (generateFastNextQuestion history remote).transcript
        "(No audible response"
      || strContains (generateFastNextQuestion history remote).transcript
        "(Error") = true) :
    (processAnswerData blobSize history question complexity media code remote).history =
      history ++ [{ id := history.length + 1, question := question,
                    questionComplexity := complexity,
                    answerAudioBase64 := some media,
                    answerVideoFrameBase64 := none,
                    transcript := (generateFastNextQuestion history remote).transcript,
                    submittedCode := code,
                    analysis := placeholderMetrics ["No Speech Detected"] .Basic,
                    interviewerNotes := none }] ∧
    (processAnswerData blobSize history question complexity media code remote).phase2Launched = false := by
  unfold processAnswerData
  simp [hsize, hsent]

/-- Claim C4 amended witness: exercises the error half of the sentinel
disjunction — a failed Phase 1 call yields the fallback transcript
containing the error marker, and the turn is committed with Phase 2
skipped. -/
theorem processAnswerData_sentinel_commit_witness :
    (processAnswerData 4096 [] "Explain database indexing." .Intermediate
      "AAAA" none (.error ())).phase2Launched = false :=
  (processAnswerData_sentinel_commit 4096 [] "Explain database indexing."
    .Intermediate "AAAA" none (.error ())
    (by decide) (by decide)).2

/-- Claim C5: for every recording blob below the 1000-byte threshold, the
answer handler returns with history unchanged, no gateway call, no Phase 2
launch, and the no-audio error banner, leaving question and complexity as
they were. -/
theorem processAnswerData_small_blob (blobSize : Nat)
    (history : List InterviewTurn) (question : String)
    (complexity : QuestionComplexity) (media : String) (code : Option String)
    (remote : Except Unit FastJson)
    (h : blobSize < 1000) :
    processAnswerData blobSize history question complexity media code remote =
      { history := history, phase1Called := false, phase2Launched := false,
        errorMsg := some "No audio detected. Please ensure the microphone is working.",
        currentQuestion := question, currentComplexity := complexity } := by
  unfold processAnswerData
  simp [h]

/-- Claim C5 witness: a 137-byte clip is rejected locally: same history, no
gateway call, the no-answer banner. -/
theorem processAnswerData_small_blob_witness :
    processAnswerData 137 [silentTurn] "Tell me about yourself in brief."
      .Basic "AAAA" none (.error ()) =
      { history := [silentTurn], phase1Called := false, phase2Launched := false,
        errorMsg := some "No audio detected. Please ensure the microphone is working.",
        currentQuestion := "Tell me about yourself in brief.",
        currentComplexity := .Basic } :=
  processAnswerData_small_blob 137 [silentTurn] "Tell me about yourself in brief."
    .Basic "AAAA" none (.error ()) (by decide)

/-- Patching by id never changes the number of turns. -/
theorem patchById_length (h : List InterviewTurn) (turnId : Nat)
    (m : AnalysisMetrics) :
    (patchById h turnId m).length = h.length := by
  unfold patchById
  exact List.length_map _ _

/-- Patching by id preserves the id of every turn. -/
theorem patchById_map_id (h : List InterviewTurn) (turnId : Nat)
    (m : AnalysisMetrics) :
    (patchById h turnId m).map (fun t => t.id) = h.map (fun t => t.id) := by
  unfold patchById
  rw [List.map_map]
  refine List.map_congr_left ?_
  intro t _
  by_cases ht : t.id = turnId <;> simp [ht]

/-- Claim C6: in every reachable SessionHistory, the turn ids are exactly the
sequence 1, 2, ..., length — strictly increasing by 1 starting at 1 — no
matter how Phase 2 patches interleave with Phase 1 commits. -/
theorem turn_ids_sequential (h : List InterviewTurn)
    (hr : ReachableHistory h) :
    h.map (fun t => t.id) = List.range' 1 h.length := by
  induction hr with
  | nil => rfl
  | commit question complexity media transcript code m _ ih =>
    rename_i h0 _
    unfold commitTurn
    rw [List.map_append, ih, List.length_append]
    simp [List.range'_concat, Nat.add_comm]
  | patch turnId m _ ih =>
    rw [patchById_map_id, patchById_length]
    exact ih

/-- Claim C6 witness: the history built by two commits and a late Phase 2
patch of turn 1 has ids [1, 2]. -/
theorem turn_ids_sequential_witness :
    twoTurnPatchedHistory.map (fun t => t.id) =
      List.range' 1 twoTurnPatchedHistory.length :=
  turn_ids_sequential twoTurnPatchedHistory
    (ReachableHistory.patch 1 (neutralMetrics "Analysis Failed")
      (ReachableHistory.commit "Which databases have you used?" .Intermediate
        (some "BBBB") "Mostly Postgres and Redis" none
        (placeholderMetrics [] .Intermediate)
        (ReachableHistory.commit "Tell me about yourself in brief." .Basic
          (some "AAAA") "I have six years of backend experience" none
          (placeholderMetrics [] .Basic) ReachableHistory.nil)))

/-- Claim C7: the Phase 2 patch-by-id is idempotent: applying the same
metrics to the same turn id twice yields the same history as applying it
once. -/
theorem patchById_idempotent (h : List InterviewTurn) (turnId : Nat)
    (m : AnalysisMetrics) :
    patchById (patchById h turnId m) turnId m = patchById h turnId m := by
  unfold patchById
  rw [List.map_map]
  refine List.map_congr_left ?_
  intro t _
  by_cases ht : t.id = turnId <;> simp [ht]

/-- Claim C8: when Turn 1 is patched by id after Turn 2 has already been
committed, the history keeps both turns: Turn 1 has exactly its metrics
replaced and every other field intact, and Turn 2 is unchanged in every
field — for all possible field values of both turns. -/
theorem patchById_after_second_commit (q1 q2 : String)
    (c1 c2 : QuestionComplexity) (a1 a2 : Option String) (tr1 tr2 : String)
    (sc1 sc2 : Option String) (m1 m2 dm : AnalysisMetrics) :
    patchById
      (commitTurn (commitTurn [] q1 c1 a1 tr1 sc1 m1) q2 c2 a2 tr2 sc2 m2)
      1 dm =
      [{ id := 1, question := q1, questionComplexity := c1,
         answerAudioBase64 := a1, answerVideoFrameBase64 := none,
         transcript := tr1, submittedCode := sc1, analysis := dm,
         interviewerNotes := none },
       { id := 2, question := q2, questionComplexity := c2,
         answerAudioBase64 := a2, answerVideoFrameBase64 := none,
         transcript := tr2, submittedCode := sc2, analysis := m2,
         interviewerNotes := none }] := by
  rfl

/-- Claim C9 counterexample: with prior complexity Expert and a remote
response declaring an Expert-quality answer, the returned nextComplexity is
the Basic value the remote model chose, which is strictly below the prior
complexity — the code never enforces the ratchet. -/
theorem nextComplexity_not_monotone :
    lastComplexity [expertPriorTurn] = .Expert ∧
    (generateFastNextQuestion [expertPriorTurn]
      (.ok expertAnswerBasicNextJson)).answerQuality = .Expert ∧
    (generateFastNextQuestion [expertPriorTurn]
      (.ok expertAnswerBasicNextJson)).nextComplexity = .Basic ∧
    QuestionComplexity.rank
        ((generateFastNextQuestion [expertPriorTurn]
          (.ok expertAnswerBasicNextJson)).nextComplexity) <
      QuestionComplexity.rank (lastComplexity [expertPriorTurn]) := by
  decide

/-- Claim C9 amended: the difficulty policy lives only in prompt text; for
every successful remote response carrying a nonempty nextQuestion, the
operation returns the remote-declared nextComplexity and answerQuality
unchanged, so no code-level relation between answer quality, prior
complexity and next complexity is enforced. -/
theorem generateFastNextQuestion_passthrough (history : List InterviewTurn)
    (j : FastJson) (q : String) (hq : j.nextQuestion = some q)
    (hne : q ≠ "") :
    (generateFastNextQuestion history (.ok j)).nextComplexity = j.nextComplexity ∧
    (generateFastNextQuestion history (.ok j)).answerQuality = j.answerQuality := by
  rcases j with ⟨tr, aq, nq, nc⟩
  simp only at hq
  subst hq
  unfold generateFastNextQuestion
  simp [hne]

/-- Claim C9 amended witness: a concrete well-formed response is passed
through unchanged. -/
theorem generateFastNextQuestion_passthrough_witness :
    (generateFastNextQuestion [] (.ok ordinaryFastJson)).nextComplexity =
      ordinaryFastJson.nextComplexity ∧
    (generateFastNextQuestion [] (.ok ordinaryFastJson)).answerQuality =
      ordinaryFastJson.answerQuality :=
  generateFastNextQuestion_passthrough [] ordinaryFastJson
    "When would you prefer a heap?" rfl (by decide)

/-- Claim C10: on both non-remote paths of the deep analysis — the
sentinel/error-transcript quick exit and the catch branch taken when the
remote call fails — the returned metrics have integrity status Clean,
deceptionProbability 0 and answerQuality Basic, so a skipped or failed deep
analysis can never mark a turn Suspicious. -/
theorem analyzeResponseDeeply_nonremote_neutral (transcript : String)
    (code : Option String) (remoteCode : Except Unit CodeAnalysisData)
    (remote : Except Unit DeepJson)
    (h : (transcript = "" || strContains transcript "(No audible response detected)"
          || strContains transcript "(Error") = true ∨ remote = .error ()) :
    (analyzeResponseDeeply transcript code remoteCode remote).1.integrity.status = .Clean ∧
    (analyzeResponseDeeply transcript code remoteCode remote).1.deceptionProbability = 0 ∧
    (analyzeResponseDeeply transcript code remoteCode remote).1.answerQuality = .Basic := by
  unfold analyzeResponseDeeply
  rcases h with h | h
  · simp [h, neutralMetrics]
  · subst h
    by_cases hc : (transcript = "" || strContains transcript "(No audible response detected)"
        || strContains transcript "(Error") = true
    · simp [hc, neutralMetrics]
    · simp [hc, neutralMetrics]

/-- Claim C10 witness: an error-sentinel transcript short-circuits to the
neutral metrics even when the remote response would have flagged the
candidate Suspicious with high deception probability. -/
theorem analyzeResponseDeeply_nonremote_neutral_witness :
    (analyzeResponseDeeply "(Error analyzing audio)" none (.error ())
      (.ok suspiciousDeepJson)).1.integrity.status = .Clean ∧
    (analyzeResponseDeeply "(Error analyzing audio)" none (.error ())
      (.ok suspiciousDeepJson)).1.deceptionProbability = 0 ∧
    (analyzeResponseDeeply "(Error analyzing audio)" none (.error ())
      (.ok suspiciousDeepJson)).1.answerQuality = .Basic :=
  analyzeResponseDeeply_nonremote_neutral "(Error analyzing audio)" none
    (.error ()) (.ok suspiciousDeepJson) (Or.inl (by decide))

end ProbeLens
